import Mathlib

/-!
Verification development for the NeuroStack ontology core: the typed
entity/relationship graph behind `neurostack/core/ontology` (graph adapter,
ontology manager, OWL loader, Excel loader).

Modelling conventions:
* UUIDs are modelled as natural numbers; `uuid4` minting is modelled as a
  counter (`nextEId` / `nextRId`), which captures the uniqueness the code
  relies on.  An ingestion-dictionary key (a string that may or may not parse
  as a UUID) is modelled as `Sum Nat String`: `Sum.inl n` is a key that parses
  to the id `n`, `Sum.inr s` is an unparsable key.
* Python dictionaries are modelled as association lists in insertion order.
* Python exceptions are modelled with `Except GraphError`; `ValueError` raised
  by enum construction is `InvalidEntityType` / `InvalidRelationshipType`, and
  the graph's endpoint check failure is `UnknownEntity`, following the error
  taxonomy of the design.
* Entity timestamps (`created_at` / `updated_at`) are omitted: no claim here
  concerns them.
* The classes `HealthcareGraph`, `MedicalEntity`, `Patient`, `Disease`,
  `Treatment`, `EntityType`, `RelationshipType`, `Relationship` live in
  `ontology 1/ontology/graph.py`, which is only imported (never defined) in
  the available sources; those definitions are modelled from the spec and
  marked `Modelled from the spec:` below.  Everything else is translated from
  the Python sources directly.
-/

/-- Python `needle in hay` on lists of characters: `subList n l` is true iff
`n` occurs as a contiguous sublist of `l` (the empty needle always occurs). -/
def subList (n : List Char) : List Char → Bool
  | [] => n.isEmpty
  | c :: t => n.isPrefixOf (c :: t) || subList n t

/-- Python `needle in hay` for strings (substring containment). -/
def strContains (hay needle : String) : Bool :=
  subList needle.data hay.data

/-- Python `s.lower()`: per-character ASCII lowercasing, modelled structurally
on the character list. -/
def lowerStr (s : String) : String :=
  ⟨s.data.map Char.toLower⟩

/-- Modelled from the spec: the closed `EntityType` enumeration of the missing
`graph.py` — members Patient, Disease, Treatment, Doctor, Facility and the
generic Entity. -/
inductive EntityType
  | Patient | Disease | Treatment | Doctor | Facility | Entity
  deriving DecidableEq, Repr

/-- Modelled from the spec: Python `EntityType(s)` — construction by value,
returning `none` where Python raises `ValueError` for a non-member string. -/
def EntityType.ofString? (s : String) : Option EntityType :=
  if s = "Patient" then some .Patient
  else if s = "Disease" then some .Disease
  else if s = "Treatment" then some .Treatment
  else if s = "Doctor" then some .Doctor
  else if s = "Facility" then some .Facility
  else if s = "Entity" then some .Entity
  else none

/-- Modelled from the spec: the `.value` of an `EntityType` member. -/
def EntityType.value : EntityType → String
  | .Patient => "Patient"
  | .Disease => "Disease"
  | .Treatment => "Treatment"
  | .Doctor => "Doctor"
  | .Facility => "Facility"
  | .Entity => "Entity"

/-- Modelled from the spec: the closed `RelationshipType` enumeration of the
missing `graph.py` — the spec names hasDisease, receivesTreatment and
treatsDisease. -/
inductive RelationshipType
  | hasDisease | receivesTreatment | treatsDisease
  deriving DecidableEq, Repr

/-- Modelled from the spec: Python `RelationshipType(s)` — construction by
value, `none` where Python raises `ValueError`. -/
def RelationshipType.ofString? (s : String) : Option RelationshipType :=
  if s = "hasDisease" then some .hasDisease
  else if s = "receivesTreatment" then some .receivesTreatment
  else if s = "treatsDisease" then some .treatsDisease
  else none

/-- Modelled from the spec: the `.value` of a `RelationshipType` member. -/
def RelationshipType.value : RelationshipType → String
  | .hasDisease => "hasDisease"
  | .receivesTreatment => "receivesTreatment"
  | .treatsDisease => "treatsDisease"

/-- An annotation row from the Excel loader: a string-to-string record. -/
abbrev Row := List (String × String)

/-- A property value: either a plain (stringified) scalar or a nested record
(the shape stored by the Excel annotation merge). -/
inductive PValue
  | str (s : String)
  | row (r : Row)
  deriving DecidableEq, Repr

/-- Python `str(v)` for a property value.  The exact rendering of a nested
record is irrelevant to every claim; a canonical rendering is used. -/
def PValue.toStr : PValue → String
  | .str s => s
  | .row r => String.intercalate ", " (r.map (fun p => p.1 ++ "=" ++ p.2))

/-- A property bag (Python dict in insertion order). -/
abbrev PropMap := List (String × PValue)

/-- Look a key up in a property bag (Python `d[k]` / `d.get(k)`). -/
def getProp (ps : PropMap) (k : String) : Option PValue :=
  (ps.find? (fun p => p.1 = k)).map (fun p => p.2)

/-- Python `d.update(\x7bk: v\x7d)`: replace the value at `k` in place if the
key exists, otherwise append the new binding. -/
def setProp (ps : PropMap) (k : String) (v : PValue) : PropMap :=
  if ps.any (fun p => p.1 = k) then
    ps.map (fun p => if p.1 = k then (k, v) else p)
  else ps ++ [(k, v)]

/-- Modelled from the spec: `MedicalEntity` of the missing `graph.py` (the
`Patient` / `Disease` / `Treatment` subclasses are entities whose
`entity_type` is the corresponding member; timestamps omitted). -/
structure MedicalEntity where
  id : Nat
  entity_type : EntityType
  name : String
  properties : PropMap
  deriving DecidableEq, Repr

/-- Modelled from the spec: `Relationship` of the missing `graph.py` — a typed
directed edge between two entity ids. -/
structure Relationship where
  id : Nat
  source_id : Nat
  target_id : Nat
  relationship_type : RelationshipType
  properties : PropMap
  deriving DecidableEq, Repr

/-- Modelled from the spec: the `HealthcareGraph` aggregate of the missing
`graph.py` — an entity store and a relationship store plus the id supply. -/
structure HealthcareGraph where
  entities : List MedicalEntity
  relationships : List Relationship
  nextEId : Nat
  nextRId : Nat
  deriving DecidableEq, Repr

/-- The error taxonomy of the design (§7): Python `ValueError` from enum
construction and the graph's endpoint-existence failure. -/
inductive GraphError
  | InvalidEntityType | InvalidRelationshipType | UnknownEntity
  deriving DecidableEq, Repr

deriving instance DecidableEq for Except

/-- The `direction` argument of the relationship queries. -/
inductive Direction
  | incoming | outgoing | both
  deriving DecidableEq, Repr

/-- Modelled from the spec: `HealthcareGraph.get_entity` — pure lookup, absent
is a valid non-error result. -/
def HealthcareGraph.get_entity (g : HealthcareGraph) (eid : Nat) :
    Option MedicalEntity :=
  g.entities.find? (fun e => e.id == eid)

/-- Modelled from the spec: `HealthcareGraph.add_entity` — inserts the entity
under a freshly generated unique id and returns that id. -/
def HealthcareGraph.add_entity (g : HealthcareGraph) (et : EntityType)
    (name : String) (props : PropMap) : Nat × HealthcareGraph :=
  (g.nextEId,
    { g with
      entities := g.entities ++ [⟨g.nextEId, et, name, props⟩]
      nextEId := g.nextEId + 1 })

/-- The successful insertion path of `add_relationship`: append the edge under
a freshly generated id. -/
def HealthcareGraph.insertRel (g : HealthcareGraph) (a b : Nat)
    (rt : RelationshipType) (props : PropMap) : Nat × HealthcareGraph :=
  (g.nextRId,
    { g with
      relationships := g.relationships ++ [⟨g.nextRId, a, b, rt, props⟩]
      nextRId := g.nextRId + 1 })

/-- Modelled from the spec: `HealthcareGraph.add_relationship` — fails closed
with `UnknownEntity` when either endpoint id is absent from the entity store,
otherwise inserts a new edge (duplicates permitted: multigraph). -/
def HealthcareGraph.add_relationship (g : HealthcareGraph) (a b : Nat)
    (rt : RelationshipType) (props : PropMap) :
    Except GraphError (Nat × HealthcareGraph) :=
  if (g.get_entity a).isSome && (g.get_entity b).isSome then
    .ok (g.insertRel a b rt props)
  else
    .error .UnknownEntity

/-- Does the edge match the entity id in the given direction?  Incoming means
`target_id == entity_id`, outgoing means `source_id == entity_id`. -/
def dirMatch (r : Relationship) (eid : Nat) : Direction → Bool
  | .incoming => r.target_id == eid
  | .outgoing => r.source_id == eid
  | .both => r.source_id == eid || r.target_id == eid

/-- Modelled from the spec: `HealthcareGraph.get_relationships` — the edges at
an entity, optionally filtered by type, in the given direction. -/
def HealthcareGraph.get_relationships (g : HealthcareGraph) (eid : Nat)
    (rt? : Option RelationshipType) (dir : Direction) : List Relationship :=
  g.relationships.filter (fun r =>
    dirMatch r eid dir &&
      match rt? with
      | none => true
      | some rt => r.relationship_type == rt)

/-- Modelled from the spec: `HealthcareGraph.find_entities` restricted to the
type filter (the property-filter argument, unused by `search_entities`, is
omitted). -/
def HealthcareGraph.find_entities (g : HealthcareGraph)
    (et? : Option EntityType) : List MedicalEntity :=
  match et? with
  | none => g.entities
  | some t => g.entities.filter (fun e => e.entity_type == t)

/-! ## The NeuroStack graph adapter (`graph_adapter.py`) -/

/-- `NeuroStackGraphAdapter.add_entity`: specialized construction for the
strings "Patient" / "Disease" / "Treatment", otherwise a generic entity whose
type is `EntityType(entity_type)` — which fails with `InvalidEntityType`
(Python `ValueError`) for a non-member string. -/
def NeuroStackGraphAdapter.add_entity (g : HealthcareGraph)
    (entity_type name : String) (props : PropMap) :
    Except GraphError (Nat × HealthcareGraph) :=
  if entity_type = "Patient" then
    .ok (g.add_entity .Patient name props)
  else if entity_type = "Disease" then
    .ok (g.add_entity .Disease name props)
  else if entity_type = "Treatment" then
    .ok (g.add_entity .Treatment name props)
  else
    match EntityType.ofString? entity_type with
    | some et => .ok (g.add_entity et name props)
    | none => .error .InvalidEntityType

/-- `NeuroStackGraphAdapter.get_entity`: lookup, returning the entity (the
dictionary rendering keeps id, type, name and properties; timestamps are
omitted from the model). -/
def NeuroStackGraphAdapter.get_entity (g : HealthcareGraph) (eid : Nat) :
    Option MedicalEntity :=
  g.get_entity eid

/-- `NeuroStackGraphAdapter.add_relationship`: converts the type string
through the closed `RelationshipType` enumeration first — failing with
`InvalidRelationshipType` (Python `ValueError`) before any endpoint check —
then delegates to the graph. -/
def NeuroStackGraphAdapter.add_relationship (g : HealthcareGraph)
    (a b : Nat) (rts : String) (props : PropMap) :
    Except GraphError (Nat × HealthcareGraph) :=
  match RelationshipType.ofString? rts with
  | none => .error .InvalidRelationshipType
  | some rt => g.add_relationship a b rt props

/-- `NeuroStackGraphAdapter.get_relationships`: optional type-string filter
converted through the enumeration, then delegation to the graph. -/
def NeuroStackGraphAdapter.get_relationships (g : HealthcareGraph) (eid : Nat)
    (rts? : Option String) (dir : Direction) :
    Except GraphError (List Relationship) :=
  match rts? with
  | none => .ok (g.get_relationships eid none dir)
  | some s =>
    match RelationshipType.ofString? s with
    | none => .error .InvalidRelationshipType
    | some rt => .ok (g.get_relationships eid (some rt) dir)

/-- `NeuroStackGraphAdapter.find_entities` with the optional type filter (the
property filters are not used by any claim). -/
def NeuroStackGraphAdapter.find_entities (g : HealthcareGraph)
    (et? : Option EntityType) : List MedicalEntity :=
  g.find_entities et?

/-- The result shape of `query_patient_info`. -/
structure PatientInfo where
  patient : MedicalEntity
  diseases : List MedicalEntity
  treatments : List MedicalEntity
  deriving DecidableEq, Repr

/-- The entities reached from `pid` via outgoing `hasDisease` edges. -/
def diseasesOf (g : HealthcareGraph) (pid : Nat) : List MedicalEntity :=
  (g.get_relationships pid (some .hasDisease) .outgoing).filterMap
    (fun r => g.get_entity r.target_id)

/-- The entities reached from `pid` via outgoing `receivesTreatment` edges. -/
def treatmentsOf (g : HealthcareGraph) (pid : Nat) : List MedicalEntity :=
  (g.get_relationships pid (some .receivesTreatment) .outgoing).filterMap
    (fun r => g.get_entity r.target_id)

/-- Modelled from the spec: `HealthcareGraph.get_patient_medical_info` of the
missing `graph.py` — the Patient entity plus the entities reached via
`hasDisease` and `receivesTreatment` outgoing edges; fails with
`UnknownEntity` when `pid` does not resolve to a Patient. -/
def HealthcareGraph.get_patient_medical_info (g : HealthcareGraph)
    (pid : Nat) : Except GraphError PatientInfo :=
  match g.get_entity pid with
  | some p =>
    if p.entity_type = .Patient then
      .ok ⟨p, diseasesOf g pid, treatmentsOf g pid⟩
    else
      .error .UnknownEntity
  | none => .error .UnknownEntity

/-- `NeuroStackGraphAdapter.query_patient_info`: delegates to the graph and
re-packages the result (dictionary rendering omitted). -/
def NeuroStackGraphAdapter.query_patient_info (g : HealthcareGraph)
    (pid : Nat) : Except GraphError PatientInfo :=
  g.get_patient_medical_info pid

/-! ## The ontology manager (`manager.py`) -/

/-- `OntologyManager.query_patient_info`: delegates to the adapter. -/
def OntologyManager.query_patient_info (g : HealthcareGraph) (pid : Nat) :
    Except GraphError PatientInfo :=
  NeuroStackGraphAdapter.query_patient_info g pid

/-- `OntologyManager.find_entities`: delegates to the adapter. -/
def OntologyManager.find_entities (g : HealthcareGraph)
    (et? : Option EntityType) : List MedicalEntity :=
  NeuroStackGraphAdapter.find_entities g et?

/-- Does the query match the entity name case-insensitively
(`query_lower in entity name lower`)? -/
def nameMatches (q : String) (e : MedicalEntity) : Bool :=
  strContains (lowerStr e.name) (lowerStr q)

/-- Does the query match some stringified property value case-insensitively
(`any(query_lower in str(v).lower() for v in properties.values())`)? -/
def propMatches (q : String) (e : MedicalEntity) : Bool :=
  e.properties.any (fun p => strContains (lowerStr (PValue.toStr p.2)) (lowerStr q))

/-- `OntologyManager.search_entities`: linear scan over `find_entities`,
keeping an entity when its name matches, or — only when the name does not
match (`elif`) — when some stringified property value matches. -/
def OntologyManager.search_entities (g : HealthcareGraph) (q : String)
    (et? : Option EntityType) : List MedicalEntity :=
  (OntologyManager.find_entities g et?).filter
    (fun e => if nameMatches q e then true else propMatches q e)

/-! ## Ingestion dictionaries and the merge (`manager.py`) -/

/-- An ingestion-dictionary key: `Sum.inl n` parses as the UUID `n`,
`Sum.inr s` is a string that `UUID(...)` rejects with `ValueError`. -/
abbrev EKey := Sum Nat String

/-- An entity record of an ingestion dictionary (`graph_data["entities"]`
values: a type string, a name, and a property bag). -/
structure IngEntity where
  etype : String
  name : String
  properties : PropMap
  deriving DecidableEq, Repr

/-- A relationship record of an ingestion dictionary
(`graph_data["relationships"]` values). -/
structure IngRel where
  source_id : EKey
  target_id : EKey
  rtype : String
  properties : PropMap
  deriving DecidableEq, Repr

/-- An ingestion dictionary: keyed entity records and relationship records in
insertion order. -/
structure GraphData where
  entities : List (EKey × IngEntity)
  relationships : List (EKey × IngRel)
  deriving DecidableEq, Repr

/-- One iteration of the entity loop of
`OntologyManager._merge_ontology_into_graph`.  A key that parses and already
exists is skipped.  A new record is added via the adapter inside `try`; a
`ValueError` from `add_entity` is caught by `except (ValueError, TypeError)`,
but the handler calls `add_entity` again with the same arguments, so the same
error is raised uncaught and aborts the loop — hence a failing `add_entity`
propagates its error.  An unparsable key goes straight to the handler's
`add_entity`, whose error is likewise uncaught. -/
def mergeEntityRecord (g : HealthcareGraph) (k : EKey) (ed : IngEntity) :
    Except GraphError HealthcareGraph :=
  match k with
  | .inl n =>
    match g.get_entity n with
    | some _ => .ok g
    | none =>
      (NeuroStackGraphAdapter.add_entity g ed.etype ed.name ed.properties).map
        (fun p => p.2)
  | .inr _ =>
    (NeuroStackGraphAdapter.add_entity g ed.etype ed.name ed.properties).map
      (fun p => p.2)

/-- The entity loop of `_merge_ontology_into_graph`: records are processed in
order; an uncaught error aborts the remainder of the merge. -/
def mergeEntities (g : HealthcareGraph) :
    List (EKey × IngEntity) → Except GraphError HealthcareGraph
  | [] => .ok g
  | (k, ed) :: rest =>
    match mergeEntityRecord g k ed with
    | .ok g2 => mergeEntities g2 rest
    | .error e => .error e

/-- One iteration of the relationship loop of `_merge_ontology_into_graph`:
endpoint keys that fail to parse are skipped by the outer
`except (ValueError, TypeError, KeyError)`; unresolved endpoints are skipped;
a rejected `add_relationship` is skipped by the inner `except ValueError`.
No error escapes this loop. -/
def mergeRelRecord (g : HealthcareGraph) (rd : IngRel) : HealthcareGraph :=
  match rd.source_id, rd.target_id with
  | .inl a, .inl b =>
    if (g.get_entity a).isSome && (g.get_entity b).isSome then
      match NeuroStackGraphAdapter.add_relationship g a b rd.rtype
          rd.properties with
      | .ok p => p.2
      | .error _ => g
    else g
  | _, _ => g

/-- `OntologyManager._merge_ontology_into_graph`: the entity loop (whose
uncaught errors abort the whole merge), then the relationship loop. -/
def mergeOntologyIntoGraph (g : HealthcareGraph) (gd : GraphData) :
    Except GraphError HealthcareGraph :=
  match mergeEntities g gd.entities with
  | .error e => .error e
  | .ok g2 => .ok (gd.relationships.foldl (fun acc kr => mergeRelRecord acc kr.2) g2)

/-! ## The OWL loader (`loader.py`) -/

/-- `OWLLoader._infer_entity_type`: keyword inference on the lowercased class
name; the "patient" test comes first, so it wins over every other keyword. -/
def inferEntityType (className : String) : String :=
  let l := lowerStr className
  if strContains l "patient" then "Patient"
  else if strContains l "disease" || strContains l "diagnosis" then "Disease"
  else if strContains l "treatment" || strContains l "therapy" ||
      strContains l "medication" then "Treatment"
  else if strContains l "doctor" || strContains l "physician" then "Doctor"
  else if strContains l "facility" || strContains l "hospital" then "Facility"
  else "Entity"

/-- `OWLLoader._map_property_to_relationship_type`: recognized property-name
patterns are normalized; every other name is returned as-is as a free-form
label, with no validation against the enumeration. -/
def mapPropertyToRelationshipType (propName : String) : String :=
  let l := lowerStr propName
  if strContains l "hasdisease" || strContains l "has_disease" then
    "hasDisease"
  else if strContains l "receivestreatment" ||
      strContains l "receives_treatment" then "receivesTreatment"
  else if strContains l "treatsdisease" || strContains l "treats_disease" then
    "treatsDisease"
  else propName

/-! ## The Excel loader (`excel_loader.py`) -/

/-- The annotation table: entity-name keys to annotation rows, in insertion
order. -/
abbrev AnnTable := List (String × Row)

/-- Exact-name lookup in the annotation table
(`if entity_name in annotations`). -/
def lookupExact (anns : AnnTable) (n : String) : Option Row :=
  (anns.find? (fun a => a.1 = n)).map (fun a => a.2)

/-- Case-insensitive fallback lookup: the first table entry whose key equals
the entity name after lowercasing (the Python loop with `break`). -/
def lookupCI (anns : AnnTable) (n : String) : Option Row :=
  (anns.find? (fun a => lowerStr a.1 = lowerStr n)).map (fun a => a.2)

/-- The per-entity body of `ExcelLoader.apply_annotations_to_entities`: exact
name match first, case-insensitive match only if that fails; on a match the
whole row is stored under the single properties key "excel_annotations"
(a one-key `update`); otherwise the entity is left unchanged. -/
def annotateEntity (anns : AnnTable) (e : IngEntity) : IngEntity :=
  match lookupExact anns e.name with
  | some row =>
    { e with properties := setProp e.properties "excel_annotations" (.row row) }
  | none =>
    match lookupCI anns e.name with
    | some row =>
      { e with
        properties := setProp e.properties "excel_annotations" (.row row) }
    | none => e

/-- `ExcelLoader.apply_annotations_to_entities`: every entity record of the
dictionary is annotated in place. -/
def applyAnnotationsToEntities (anns : AnnTable)
    (ents : List (EKey × IngEntity)) : List (EKey × IngEntity) :=
  ents.map (fun p => (p.1, annotateEntity anns p.2))

/-! ## Helper lemmas -/

/-- `EntityType(s)` succeeds exactly onto the member whose value is `s`. -/
theorem EntityType.value_ofString {s : String} {et : EntityType}
    (h : EntityType.ofString? s = some et) : et.value = s := by
  unfold EntityType.ofString? at h
  split_ifs at h <;> simp_all [EntityType.value] <;> subst h <;> rfl

/-- The adapter's `add_entity` if-chain agrees with constructing through the
enumeration: the three specialized branches coincide with the corresponding
members, and every other string goes through `EntityType(entity_type)`. -/
theorem adapter_add_entity_eq (g : HealthcareGraph) (s name : String)
    (props : PropMap) :
    NeuroStackGraphAdapter.add_entity g s name props =
      match EntityType.ofString? s with
      | some et => .ok (g.add_entity et name props)
      | none => .error .InvalidEntityType := by
  unfold NeuroStackGraphAdapter.add_entity EntityType.ofString?
  by_cases h1 : s = "Patient" <;> by_cases h2 : s = "Disease" <;>
    by_cases h3 : s = "Treatment" <;> simp_all

/-- Well-formedness of the id supply: every stored entity id is below the
counter (the model of `uuid4` never reissuing an id). -/
def HealthcareGraph.WF (g : HealthcareGraph) : Prop :=
  ∀ e ∈ g.entities, e.id < g.nextEId

instance (g : HealthcareGraph) : Decidable g.WF := by
  unfold HealthcareGraph.WF; infer_instance

/-- In a well-formed graph, no stored entity carries the next fresh id. -/
theorem find?_fresh_none (g : HealthcareGraph) (hWF : g.WF) :
    g.entities.find? (fun e => e.id == g.nextEId) = none := by
  rw [List.find?_eq_none]
  intro e he
  simpa using Nat.ne_of_lt (hWF e he)

/-! ## C2 -/

/-- C2: `add_entity(entity_type, name, properties)` constructs a specialized
entity for the strings "Patient" / "Disease" / "Treatment", fails with
`InvalidEntityType` for every string that does not map to an entity-type
enumeration member, and otherwise inserts a generic entity carrying the raw
type string (the member whose value is exactly that string). -/
theorem c2_add_entity_cases (g : HealthcareGraph) (s name : String)
    (props : PropMap) :
    (NeuroStackGraphAdapter.add_entity g s name props =
      match EntityType.ofString? s with
      | some et => .ok (g.add_entity et name props)
      | none => .error .InvalidEntityType) ∧
    (∀ et, EntityType.ofString? s = some et →
      (⟨g.nextEId, et, name, props⟩ : MedicalEntity) ∈
          (g.add_entity et name props).2.entities ∧
        et.value = s) := by
  refine ⟨adapter_add_entity_eq g s name props, ?_⟩
  intro et hs
  refine ⟨?_, EntityType.value_ofString hs⟩
  simp [HealthcareGraph.add_entity]

/-- Witness for C2 at a concrete input: the string "Doctor" is not one of the
specialized types, maps to the enumeration member `Doctor`, and a generic
entity carrying that raw type string is inserted. -/
theorem c2_witness :
    NeuroStackGraphAdapter.add_entity ⟨[], [], 0, 0⟩ "Doctor" "House" [] =
      Except.ok (HealthcareGraph.add_entity ⟨[], [], 0, 0⟩ .Doctor "House" []) ∧
    (⟨0, .Doctor, "House", []⟩ : MedicalEntity) ∈
      (HealthcareGraph.add_entity ⟨[], [], 0, 0⟩ .Doctor "House" []).2.entities ∧
    EntityType.value .Doctor = "Doctor" := by
  have h := c2_add_entity_cases ⟨[], [], 0, 0⟩ "Doctor" "House" []
  exact ⟨h.1, (h.2 .Doctor rfl).1, (h.2 .Doctor rfl).2⟩

/-! ## C6 -/

/-- C6: immediately after a successful `add_entity`, `get_entity` on the new
id returns exactly the created entity (same id, entity type, name and
properties), the new id identifies no other stored entity, and the id supply
stays well-formed, so the id is never returned as another entity's id by any
accessor. -/
theorem c6_get_entity_roundtrip (g : HealthcareGraph) (hWF : g.WF)
    (s name : String) (props : PropMap) (et : EntityType)
    (hs : EntityType.ofString? s = some et) :
    NeuroStackGraphAdapter.add_entity g s name props =
      Except.ok (g.add_entity et name props) ∧
    NeuroStackGraphAdapter.get_entity (g.add_entity et name props).2
        (g.add_entity et name props).1 =
      some ⟨g.nextEId, et, name, props⟩ ∧
    (∀ e ∈ (g.add_entity et name props).2.entities,
      e.id = g.nextEId → e = ⟨g.nextEId, et, name, props⟩) ∧
    (g.add_entity et name props).2.WF := by
  refine ⟨by rw [adapter_add_entity_eq, hs], ?_, ?_, ?_⟩
  · show HealthcareGraph.get_entity _ _ = _
    unfold HealthcareGraph.get_entity HealthcareGraph.add_entity
    rw [List.find?_append, find?_fresh_none g hWF]
    simp
  · intro e he hid
    unfold HealthcareGraph.add_entity at he
    rcases List.mem_append.mp he with hold | hnew
    · exact absurd hid (Nat.ne_of_lt (hWF e hold))
    · simpa using hnew
  · intro e he
    unfold HealthcareGraph.add_entity at he ⊢
    rcases List.mem_append.mp he with hold | hnew
    · exact Nat.lt_succ_of_lt (hWF e hold)
    · simp_all

/-- Witness for C6 at a concrete input: adding a Disease named "Flu" to a
one-entity graph, the new id 1 round-trips through `get_entity`. -/
theorem c6_witness :
    NeuroStackGraphAdapter.add_entity ⟨[⟨0, .Patient, "Seed", []⟩], [], 1, 0⟩
        "Disease" "Flu" [] =
      Except.ok (HealthcareGraph.add_entity ⟨[⟨0, .Patient, "Seed", []⟩], [], 1, 0⟩
        .Disease "Flu" []) ∧
    NeuroStackGraphAdapter.get_entity
        (HealthcareGraph.add_entity ⟨[⟨0, .Patient, "Seed", []⟩], [], 1, 0⟩
          .Disease "Flu" []).2 1 =
      some ⟨1, .Disease, "Flu", []⟩ := by
  have h := c6_get_entity_roundtrip ⟨[⟨0, .Patient, "Seed", []⟩], [], 1, 0⟩
    (by decide) "Disease" "Flu" [] .Disease rfl
  exact ⟨h.1, h.2.1⟩

/-! ## C1 -/

/-- A concrete two-entity graph shared by several concrete instances below. -/
def gTwo : HealthcareGraph :=
  ⟨[⟨0, .Patient, "Alice", []⟩, ⟨1, .Disease, "Flu", []⟩], [], 2, 0⟩

/-- C1, counterexample: the claim quantifies over every call, but a call whose
`relationship_type` string is not an enumeration member fails with
`InvalidRelationshipType` before any endpoint check — it neither succeeds when
both endpoints resolve (ids 0 and 1 here) nor fails with `UnknownEntity` when
an endpoint (id 7) is absent. -/
theorem c1_counterexample :
    (gTwo.get_entity 0).isSome = true ∧ (gTwo.get_entity 1).isSome = true ∧
    NeuroStackGraphAdapter.add_relationship gTwo 0 1 "bogusRel" [] =
      .error .InvalidRelationshipType ∧
    gTwo.get_entity 7 = none ∧
    NeuroStackGraphAdapter.add_relationship gTwo 0 7 "bogusRel" [] =
      .error .InvalidRelationshipType := by
  decide

/-- C1, amended: for a `relationship_type` string that does not map to the
enumeration the call fails with `InvalidRelationshipType` regardless of
endpoints; for a string that maps to the member `rt`, the call fails with
`UnknownEntity` when either endpoint id is absent, and otherwise succeeds with
the new relationship subsequently returned by
`get_relationships(source_id, outgoing)` and by
`get_relationships(target_id, incoming)`. -/
theorem c1_add_relationship_amended (g : HealthcareGraph) (a b : Nat)
    (rts : String) (props : PropMap) :
    (RelationshipType.ofString? rts = none →
      NeuroStackGraphAdapter.add_relationship g a b rts props =
        .error .InvalidRelationshipType) ∧
    (∀ rt, RelationshipType.ofString? rts = some rt →
      ((g.get_entity a = none ∨ g.get_entity b = none) →
        NeuroStackGraphAdapter.add_relationship g a b rts props =
          .error .UnknownEntity) ∧
      (∀ ea eb, g.get_entity a = some ea → g.get_entity b = some eb →
        NeuroStackGraphAdapter.add_relationship g a b rts props =
          .ok (g.insertRel a b rt props) ∧
        NeuroStackGraphAdapter.get_relationships (g.insertRel a b rt props).2
            a none .outgoing =
          .ok (HealthcareGraph.get_relationships (g.insertRel a b rt props).2
            a none .outgoing) ∧
        (⟨g.nextRId, a, b, rt, props⟩ : Relationship) ∈
          HealthcareGraph.get_relationships (g.insertRel a b rt props).2
            a none .outgoing ∧
        (⟨g.nextRId, a, b, rt, props⟩ : Relationship) ∈
          HealthcareGraph.get_relationships (g.insertRel a b rt props).2
            b none .incoming)) := by
  constructor
  · intro h
    unfold NeuroStackGraphAdapter.add_relationship
    rw [h]
  · intro rt hrt
    constructor
    · intro habs
      unfold NeuroStackGraphAdapter.add_relationship
      rw [hrt]
      unfold HealthcareGraph.add_relationship
      rcases habs with h | h <;> simp [h]
    · intro ea eb ha hb
      refine ⟨?_, rfl, ?_, ?_⟩
      · unfold NeuroStackGraphAdapter.add_relationship
        rw [hrt]
        unfold HealthcareGraph.add_relationship
        simp [ha, hb]
      · unfold HealthcareGraph.get_relationships HealthcareGraph.insertRel
        rw [List.mem_filter]
        exact ⟨by simp, by simp [dirMatch]⟩
      · unfold HealthcareGraph.get_relationships HealthcareGraph.insertRel
        rw [List.mem_filter]
        exact ⟨by simp, by simp [dirMatch]⟩

/-- Witness for C1 at concrete inputs: with the recognized type "hasDisease",
the call on a fabricated target id 7 fails with `UnknownEntity`, and the call
on the resolving endpoints 0 and 1 succeeds, with the new relationship
retrievable outgoing from the source and incoming at the target. -/
theorem c1_witness :
    NeuroStackGraphAdapter.add_relationship gTwo 0 7 "hasDisease" [] =
      .error .UnknownEntity ∧
    NeuroStackGraphAdapter.add_relationship gTwo 0 1 "hasDisease" [] =
      .ok (gTwo.insertRel 0 1 .hasDisease []) ∧
    (⟨0, 0, 1, .hasDisease, []⟩ : Relationship) ∈
      HealthcareGraph.get_relationships (gTwo.insertRel 0 1 .hasDisease []).2
        0 none .outgoing ∧
    (⟨0, 0, 1, .hasDisease, []⟩ : Relationship) ∈
      HealthcareGraph.get_relationships (gTwo.insertRel 0 1 .hasDisease []).2
        1 none .incoming := by
  have h7 := (c1_add_relationship_amended gTwo 0 7 "hasDisease" []).2
    .hasDisease rfl
  have h01 := ((c1_add_relationship_amended gTwo 0 1 "hasDisease" []).2
    .hasDisease rfl).2 ⟨0, .Patient, "Alice", []⟩ ⟨1, .Disease, "Flu", []⟩
    (by decide) (by decide)
  exact ⟨h7.1 (Or.inr (by decide)), h01.1, h01.2.2.1, h01.2.2.2⟩

/-! ## C3 -/

/-- An ingestion dictionary whose first entity record is malformed (an
unparsable key and an unrecognized type string) followed by a well-formed
Disease record under a fresh parsable key. -/
def gdBad : GraphData :=
  ⟨[(Sum.inr "not-a-uuid", ⟨"Bogus", "X", []⟩),
    (Sum.inl 100, ⟨"Disease", "FluNew", []⟩)], []⟩

/-- C3, evaluating the merge at the failing input: the entity loop's
`except (ValueError, TypeError)` handler calls `add_entity` again, so the
`InvalidEntityType` error escapes and aborts the whole merge — the malformed
record is not skipped, and the remaining well-formed record (which a merge of
it alone would ingest, second conjunct) is lost. -/
theorem c3_merge_aborts_on_malformed_record :
    mergeOntologyIntoGraph gTwo gdBad = .error .InvalidEntityType ∧
    mergeOntologyIntoGraph gTwo ⟨[(Sum.inl 100, ⟨"Disease", "FluNew", []⟩)], []⟩ =
      .ok ⟨gTwo.entities ++ [⟨2, .Disease, "FluNew", []⟩], [], 3, 0⟩ := by
  decide

/-! ## C4 -/

/-- A single-entity ingestion dictionary keyed by an id (100) that is not an
entity id of `gTwo`. -/
def gdFlu : GraphData := ⟨[(Sum.inl 100, ⟨"Disease", "Flu", []⟩)], []⟩

/-- C4, counterexample: merging the same ingestion dictionary into a graph
twice duplicates its entities — the first merge stores the Flu record under a
freshly minted id, so the second merge's existence check on the dictionary key
(100) still fails and the record is re-added: entity count 2 → 3 → 4. -/
theorem c4_counterexample :
    (mergeOntologyIntoGraph gTwo gdFlu).map (fun g => g.entities.length) =
      .ok 3 ∧
    ((mergeOntologyIntoGraph gTwo gdFlu).bind
        (fun g1 => mergeOntologyIntoGraph g1 gdFlu)).map
      (fun g => g.entities.length) = .ok 4 := by
  decide

/-- A successful `add_relationship` call never changes the entity store. -/
theorem adapter_addrel_ok_entities {g : HealthcareGraph} {a b : Nat}
    {s : String} {props : PropMap} {p : Nat × HealthcareGraph}
    (h : NeuroStackGraphAdapter.add_relationship g a b s props = .ok p) :
    p.2.entities = g.entities := by
  unfold NeuroStackGraphAdapter.add_relationship
    HealthcareGraph.add_relationship at h
  cases hrt : RelationshipType.ofString? s <;> rw [hrt] at h
  · exact absurd h (by simp)
  · simp only [] at h
    by_cases hc : ((g.get_entity a).isSome && (g.get_entity b).isSome) = true
    · rw [if_pos hc] at h
      cases h
      rfl
    · rw [if_neg hc] at h
      exact absurd h (by simp)

/-- The relationship loop of the merge never changes the entity store. -/
theorem mergeRel_entities (g : HealthcareGraph) (rd : IngRel) :
    (mergeRelRecord g rd).entities = g.entities := by
  unfold mergeRelRecord
  cases rd.source_id <;> cases rd.target_id <;> try rfl
  rename_i a b
  simp only []
  by_cases hc : ((g.get_entity a).isSome && (g.get_entity b).isSome) = true
  · rw [if_pos hc]
    cases hok : NeuroStackGraphAdapter.add_relationship g a b rd.rtype
        rd.properties with
    | ok p => simpa using adapter_addrel_ok_entities hok
    | error e => rfl
  · rw [if_neg hc]

/-- Folding the relationship loop over any record list preserves the entity
store. -/
theorem foldlRel_entities (rels : List (EKey × IngRel)) :
    ∀ g : HealthcareGraph,
      (rels.foldl (fun acc kr => mergeRelRecord acc kr.2) g).entities =
        g.entities := by
  induction rels with
  | nil => intro g; rfl
  | cons kr rest ih =>
    intro g
    simpa [List.foldl_cons, mergeRel_entities] using
      (ih (mergeRelRecord g kr.2)).trans (mergeRel_entities g kr.2)

/-- When every entity key of the records already resolves to a stored entity,
the entity loop of the merge skips every record. -/
theorem mergeEntities_skip (l : List (EKey × IngEntity)) :
    ∀ g : HealthcareGraph,
      (∀ p ∈ l, ∃ n, p.1 = Sum.inl n ∧ (g.get_entity n).isSome = true) →
      mergeEntities g l = .ok g := by
  induction l with
  | nil => intro g _; rfl
  | cons ked rest ih =>
    intro g h
    obtain ⟨n, hk, hsome⟩ := h ked (List.mem_cons_self ked rest)
    obtain ⟨k, ed⟩ := ked
    simp only at hk
    subst hk
    obtain ⟨e, he⟩ := Option.isSome_iff_exists.mp hsome
    have hrec : mergeEntityRecord g (Sum.inl n) ed = .ok g := by
      simp [mergeEntityRecord, he]
    simp only [mergeEntities, hrec]
    exact ih g (fun p hp => h p (List.mem_cons_of_mem _ hp))

/-- C4, amended: a merge is a no-op for entities exactly when the
dictionary's entity keys already resolve to entities of the live graph (as
after a fresh-load bootstrap that preserves the dictionary's ids) — then the
entity store is left unchanged; in general the merge stores each incoming
entity under a freshly minted id, so re-merging a previously merged
dictionary re-adds its entities and increases the entity count. -/
theorem c4_merge_noop_amended (g : HealthcareGraph) (gd : GraphData)
    (h : ∀ p ∈ gd.entities, ∃ n, p.1 = Sum.inl n ∧
      (g.get_entity n).isSome = true) :
    (mergeOntologyIntoGraph g gd).map (fun x => x.entities) =
      .ok g.entities := by
  unfold mergeOntologyIntoGraph
  rw [mergeEntities_skip gd.entities g h]
  simp [Except.map, foldlRel_entities]

/-- Witness for C4 at a concrete input: the dictionary keyed by the existing
entity id 0 merges into `gTwo` without changing the entity store. -/
theorem c4_witness :
    (mergeOntologyIntoGraph gTwo ⟨[(Sum.inl 0, ⟨"Disease", "X", []⟩)], []⟩).map
      (fun x => x.entities) = .ok gTwo.entities := by
  apply c4_merge_noop_amended
  intro p hp
  simp only [List.mem_singleton] at hp
  subst hp
  exact ⟨0, rfl, by decide⟩

/-! ## C5 -/

/-- C5: `query_patient_info(patient_id)` returns the Patient entity together
with exactly the entities reached via outgoing `hasDisease` edges and exactly
the entities reached via outgoing `receivesTreatment` edges, and fails with
`UnknownEntity` for every id that does not resolve to a Patient (absent, or
resolving to a non-Patient entity). -/
theorem c5_query_patient_info (g : HealthcareGraph) (pid : Nat) :
    (OntologyManager.query_patient_info g pid =
      match g.get_entity pid with
      | some p =>
        if p.entity_type = .Patient then
          .ok ⟨p, diseasesOf g pid, treatmentsOf g pid⟩
        else .error .UnknownEntity
      | none => .error .UnknownEntity) ∧
    (∀ d, d ∈ diseasesOf g pid ↔ ∃ r, r ∈ g.relationships ∧
      r.source_id = pid ∧ r.relationship_type = .hasDisease ∧
      g.get_entity r.target_id = some d) ∧
    (∀ t, t ∈ treatmentsOf g pid ↔ ∃ r, r ∈ g.relationships ∧
      r.source_id = pid ∧ r.relationship_type = .receivesTreatment ∧
      g.get_entity r.target_id = some t) := by
  refine ⟨rfl, ?_, ?_⟩
  · intro d
    unfold diseasesOf HealthcareGraph.get_relationships
    simp only [List.mem_filterMap, List.mem_filter]
    constructor
    · rintro ⟨r, ⟨hr, hp⟩, hf⟩
      simp only [dirMatch, Bool.and_eq_true, beq_iff_eq] at hp
      exact ⟨r, hr, hp.1, hp.2, hf⟩
    · rintro ⟨r, hr, hs, ht, hf⟩
      exact ⟨r, ⟨hr, by simp [dirMatch, hs, ht]⟩, hf⟩
  · intro t
    unfold treatmentsOf HealthcareGraph.get_relationships
    simp only [List.mem_filterMap, List.mem_filter]
    constructor
    · rintro ⟨r, ⟨hr, hp⟩, hf⟩
      simp only [dirMatch, Bool.and_eq_true, beq_iff_eq] at hp
      exact ⟨r, hr, hp.1, hp.2, hf⟩
    · rintro ⟨r, hr, hs, ht, hf⟩
      exact ⟨r, ⟨hr, by simp [dirMatch, hs, ht]⟩, hf⟩

/-! ## C7 -/

/-- C7: `search_entities(query, entity_type?)` returns exactly the stored
entities within the type restriction whose name contains the query as a
case-insensitive substring, plus those whose name does not match but some
stringified property value does; each stored entity occurs in the result at
most as often as in the store (so at most once each). -/
theorem c7_search_entities (g : HealthcareGraph) (q : String)
    (et? : Option EntityType) :
    (∀ e, e ∈ OntologyManager.search_entities g q et? ↔
      e ∈ OntologyManager.find_entities g et? ∧
        (nameMatches q e = true ∨
          (nameMatches q e = false ∧ propMatches q e = true))) ∧
    (∀ e, (OntologyManager.search_entities g q et?).count e ≤
      g.entities.count e) := by
  constructor
  · intro e
    unfold OntologyManager.search_entities
    rw [List.mem_filter]
    cases hn : nameMatches q e <;> simp [hn]
  · intro e
    have h1 : (OntologyManager.search_entities g q et?).Sublist
        (OntologyManager.find_entities g et?) := List.filter_sublist _
    have h2 : (OntologyManager.find_entities g et?).Sublist g.entities := by
      unfold OntologyManager.find_entities NeuroStackGraphAdapter.find_entities
        HealthcareGraph.find_entities
      cases et? with
      | none => exact List.Sublist.refl _
      | some t => exact List.filter_sublist _
    exact (h1.trans h2).count_le e

/-! ## C8 -/

/-- An ingestion dictionary with one relationship record of the unrecognized
free-form type "ownsPet" between the two entities of `gTwo`. -/
def gdRel : GraphData :=
  ⟨[], [(Sum.inl 50, ⟨Sum.inl 0, Sum.inl 1, "ownsPet", []⟩)]⟩

/-- C8, counterexample: the loader passes the unrecognized name "ownsPet"
through unchanged, but the record is not passed through into the graph —
`add_relationship` rejects it through the closed enumeration, and the merge
silently drops it (the merged graph holds no relationship), despite both
endpoints resolving. -/
theorem c8_counterexample :
    mapPropertyToRelationshipType "ownsPet" = "ownsPet" ∧
    NeuroStackGraphAdapter.add_relationship gTwo 0 1 "ownsPet" [] =
      .error .InvalidRelationshipType ∧
    (mergeOntologyIntoGraph gTwo gdRel).map (fun g => g.relationships) =
      .ok [] := by
  decide

/-- C8, amended: the loader's property-to-relationship mapping passes every
unrecognized property name through unchanged as a free-form type label in the
ingestion dictionary, but when such a record reaches the live graph through
`add_relationship` the closed relationship-type enumeration rejects it with
`InvalidRelationshipType` (and the merge therefore silently skips the
record) rather than storing the free-form label. -/
theorem c8_free_form_passthrough (s : String)
    (h1 : strContains (lowerStr s) "hasdisease" = false)
    (h2 : strContains (lowerStr s) "has_disease" = false)
    (h3 : strContains (lowerStr s) "receivestreatment" = false)
    (h4 : strContains (lowerStr s) "receives_treatment" = false)
    (h5 : strContains (lowerStr s) "treatsdisease" = false)
    (h6 : strContains (lowerStr s) "treats_disease" = false)
    (h7 : RelationshipType.ofString? s = none) :
    mapPropertyToRelationshipType s = s ∧
    ∀ (g : HealthcareGraph) (a b : Nat) (props : PropMap),
      NeuroStackGraphAdapter.add_relationship g a b s props =
        .error .InvalidRelationshipType := by
  constructor
  · unfold mapPropertyToRelationshipType
    simp [h1, h2, h3, h4, h5, h6]
  · intro g a b props
    unfold NeuroStackGraphAdapter.add_relationship
    rw [h7]

/-- Witness for C8 at a concrete input: the free-form name "hasSymptom" is
passed through by the loader and rejected by `add_relationship`. -/
theorem c8_witness :
    mapPropertyToRelationshipType "hasSymptom" = "hasSymptom" ∧
    NeuroStackGraphAdapter.add_relationship gTwo 0 1 "hasSymptom" [] =
      .error .InvalidRelationshipType := by
  have h := c8_free_form_passthrough "hasSymptom" (by decide) (by decide)
    (by decide) (by decide) (by decide) (by decide) rfl
  exact ⟨h.1, h.2 gTwo 0 1 []⟩

/-! ## C10 -/

/-- C10: the entity-type inference is total into the six labels of the
enumeration; a name containing "patient" case-insensitively always yields
"Patient" regardless of other keywords, and a name containing none of the
recognized keywords yields the generic "Entity". -/
theorem c10_infer_entity_type (s : String) :
    inferEntityType s ∈
      ["Patient", "Disease", "Treatment", "Doctor", "Facility", "Entity"] ∧
    (strContains (lowerStr s) "patient" = true → inferEntityType s = "Patient") ∧
    (strContains (lowerStr s) "patient" = false →
      strContains (lowerStr s) "disease" = false →
      strContains (lowerStr s) "diagnosis" = false →
      strContains (lowerStr s) "treatment" = false →
      strContains (lowerStr s) "therapy" = false →
      strContains (lowerStr s) "medication" = false →
      strContains (lowerStr s) "doctor" = false →
      strContains (lowerStr s) "physician" = false →
      strContains (lowerStr s) "facility" = false →
      strContains (lowerStr s) "hospital" = false →
      inferEntityType s = "Entity") := by
  refine ⟨?_, ?_, ?_⟩
  · unfold inferEntityType
    simp only []
    split_ifs <;> simp
  · intro h
    simp [inferEntityType, h]
  · intro k1 k2 k3 k4 k5 k6 k7 k8 k9 k10
    simp [inferEntityType, k1, k2, k3, k4, k5, k6, k7, k8, k9, k10]

/-- Witness for C10 at concrete inputs: "PatientWithDisease" contains both the
"patient" and the "disease" keyword yet yields "Patient", and "XRayUnit"
contains no recognized keyword and yields "Entity". -/
theorem c10_witness :
    strContains (lowerStr "PatientWithDisease") "patient" = true ∧
    strContains (lowerStr "PatientWithDisease") "disease" = true ∧
    inferEntityType "PatientWithDisease" = "Patient" ∧
    inferEntityType "XRayUnit" = "Entity" := by
  refine ⟨by decide, by decide, ?_, ?_⟩
  · exact (c10_infer_entity_type "PatientWithDisease").2.1 (by decide)
  · exact (c10_infer_entity_type "XRayUnit").2.2 (by decide) (by decide)
      (by decide) (by decide) (by decide) (by decide) (by decide) (by decide)
      (by decide) (by decide)

/-! ## C9 -/

/-- Updating the key `k` in a property bag leaves the lookup of every other
key unchanged (the in-place-update branch). -/
theorem find?_map_update_ne (ps : PropMap) (k : String) (v : PValue)
    (k2 : String) (h : k2 ≠ k) :
    (ps.map (fun p => if p.1 = k then (k, v) else p)).find?
        (fun p => p.1 = k2) =
      ps.find? (fun p => p.1 = k2) := by
  induction ps with
  | nil => rfl
  | cons p rest ih =>
    simp only [List.map_cons]
    by_cases hk : p.1 = k
    · rw [if_pos hk, List.find?_cons_of_neg _ (by simp [Ne.symm h]),
        List.find?_cons_of_neg _ (by simp [hk, Ne.symm h])]
      exact ih
    · rw [if_neg hk]
      by_cases hp : p.1 = k2
      · rw [List.find?_cons_of_pos _ (by simp [hp]),
          List.find?_cons_of_pos _ (by simp [hp])]
      · rw [List.find?_cons_of_neg _ (by simp [hp]),
          List.find?_cons_of_neg _ (by simp [hp])]
        exact ih

/-- When some binding carries the key `k`, the in-place update puts `(k, v)`
at the first such position, so the lookup of `k` finds it. -/
theorem find?_map_update_self (ps : PropMap) (k : String) (v : PValue)
    (h : ps.any (fun p => p.1 = k) = true) :
    (ps.map (fun p => if p.1 = k then (k, v) else p)).find?
        (fun p => p.1 = k) = some (k, v) := by
  induction ps with
  | nil => simp at h
  | cons p rest ih =>
    simp only [List.map_cons]
    by_cases hk : p.1 = k
    · rw [if_pos hk, List.find?_cons_of_pos _ (by simp)]
    · rw [if_neg hk, List.find?_cons_of_neg _ (by simp [hk])]
      exact ih (by simpa [List.any_cons, hk] using h)

/-- `d.update` with the single key `k` does not change the value stored at
any other key. -/
theorem getProp_setProp_ne (ps : PropMap) (k : String) (v : PValue)
    (k2 : String) (h : k2 ≠ k) :
    getProp (setProp ps k v) k2 = getProp ps k2 := by
  unfold setProp getProp
  by_cases hany : ps.any (fun p => p.1 = k) = true
  · rw [if_pos hany, find?_map_update_ne ps k v k2 h]
  · rw [if_neg hany, List.find?_append]
    have h1 : List.find? (fun p => p.1 = k2) [(k, v)] = none := by
      simp [Ne.symm h]
    rw [h1]
    cases ps.find? (fun p => p.1 = k2) <;> rfl

/-- `d.update` with the single key `k` stores exactly `v` at `k`. -/
theorem getProp_setProp_self (ps : PropMap) (k : String) (v : PValue) :
    getProp (setProp ps k v) k = some v := by
  unfold setProp getProp
  by_cases hany : ps.any (fun p => p.1 = k) = true
  · rw [if_pos hany, find?_map_update_self ps k v hany]
    rfl
  · rw [if_neg hany, List.find?_append]
    have h1 : ps.find? (fun p => p.1 = k) = none := by
      rw [List.find?_eq_none]
      intro x hx hpx
      exact hany (List.any_eq_true.mpr ⟨x, hx, by simpa using hpx⟩)
    rw [h1]
    simp

/-- C9: annotation application matches each entity's name against the table
exactly first and case-insensitively only if the exact match fails; on a
match the whole row is stored under the single properties key
"excel_annotations" and no other property key is overwritten; entities with
no match are left unchanged (and the type and name are never touched). -/
theorem c9_apply_annotations (anns : AnnTable)
    (ents : List (EKey × IngEntity)) (e : IngEntity) :
    applyAnnotationsToEntities anns ents =
      ents.map (fun p => (p.1, annotateEntity anns p.2)) ∧
    (annotateEntity anns e).etype = e.etype ∧
    (annotateEntity anns e).name = e.name ∧
    (∀ k, k ≠ "excel_annotations" →
      getProp (annotateEntity anns e).properties k = getProp e.properties k) ∧
    (lookupExact anns e.name = none → lookupCI anns e.name = none →
      annotateEntity anns e = e) ∧
    (∀ row, lookupExact anns e.name = some row →
      getProp (annotateEntity anns e).properties "excel_annotations" =
        some (.row row)) ∧
    (∀ row, lookupExact anns e.name = none → lookupCI anns e.name = some row →
      getProp (annotateEntity anns e).properties "excel_annotations" =
        some (.row row)) := by
  refine ⟨rfl, ?_, ?_, ?_, ?_, ?_, ?_⟩
  · unfold annotateEntity
    cases lookupExact anns e.name with
    | some row => rfl
    | none =>
      cases lookupCI anns e.name with
      | some row => rfl
      | none => rfl
  · unfold annotateEntity
    cases lookupExact anns e.name with
    | some row => rfl
    | none =>
      cases lookupCI anns e.name with
      | some row => rfl
      | none => rfl
  · intro k hk
    unfold annotateEntity
    cases lookupExact anns e.name with
    | some row => exact getProp_setProp_ne e.properties _ _ k hk
    | none =>
      cases lookupCI anns e.name with
      | some row => exact getProp_setProp_ne e.properties _ _ k hk
      | none => rfl
  · intro h1 h2
    simp [annotateEntity, h1, h2]
  · intro row hrow
    simp [annotateEntity, hrow, getProp_setProp_self]
  · intro row h1 h2
    simp [annotateEntity, h1, h2, getProp_setProp_self]

/-- Witness for C9 at concrete inputs: an exact match stores the row and
leaves the other property key untouched, a case-insensitively matching name
receives the row as a fallback, and a non-matching entity is unchanged. -/
theorem c9_witness :
    getProp (annotateEntity [("Flu", [("severity", "high")])]
        ⟨"Disease", "Flu", [("note", PValue.str "v")]⟩).properties
      "excel_annotations" = some (PValue.row [("severity", "high")]) ∧
    getProp (annotateEntity [("Flu", [("severity", "high")])]
        ⟨"Disease", "Flu", [("note", PValue.str "v")]⟩).properties "note" =
      some (PValue.str "v") ∧
    getProp (annotateEntity [("Flu", [("severity", "high")])]
        ⟨"Disease", "flu", []⟩).properties "excel_annotations" =
      some (PValue.row [("severity", "high")]) ∧
    annotateEntity [("Flu", [("severity", "high")])] ⟨"Disease", "Cold", []⟩ =
      ⟨"Disease", "Cold", []⟩ := by
  have hA := c9_apply_annotations [("Flu", [("severity", "high")])] []
    ⟨"Disease", "Flu", [("note", PValue.str "v")]⟩
  have hB := c9_apply_annotations [("Flu", [("severity", "high")])] []
    ⟨"Disease", "flu", []⟩
  have hC := c9_apply_annotations [("Flu", [("severity", "high")])] []
    ⟨"Disease", "Cold", []⟩
  refine ⟨hA.2.2.2.2.2.1 _ (by decide), ?_,
    hB.2.2.2.2.2.2 _ (by decide) (by decide),
    hC.2.2.2.2.1 (by decide) (by decide)⟩
  exact (hA.2.2.2.1 "note" (by decide)).trans (by decide)
